import Mathlib

/-!
Verification development for the molecular-dynamics-toy repository.

The Python sources under src/molecular_dynamics_toy are shallowly embedded:
pygame rectangles become an integer Rect structure (with the pygame-style exclusive
right/bottom edge semantics in collidepoint), Python floats become rationals,
stateful widget methods become explicit state-passing functions, and fallible
code returns Except.  Parts of the repository that only exist as callers or
tests in the snapshot (the MD engine, the calculator factory, the external
ASE builders) are modelled from the specification and marked as such.
-/

namespace MDToy

/-- A pygame-style rectangle with integer coordinates.  `right` and `bottom`
are derived; `collidepoint` excludes the right and bottom edges, exactly as
pygame does. -/
structure Rect where
  left : Int
  top : Int
  width : Int
  height : Int
deriving Repr, DecidableEq

def Rect.right (r : Rect) : Int := r.left + r.width

def Rect.bottom (r : Rect) : Int := r.top + r.height

/-- pygame `Rect.centery` (integer division on a nonnegative height in every
use below, where all division conventions agree). -/
def Rect.centery (r : Rect) : Int := r.top + r.height / 2

def Rect.centerx (r : Rect) : Int := r.left + r.width / 2

/-- pygame `Rect.collidepoint`: a point along the right or bottom edge is not
inside the rectangle. -/
def Rect.collidepoint (r : Rect) (x y : Int) : Bool :=
  decide (r.left ≤ x) && decide (x < r.right) &&
  decide (r.top ≤ y) && decide (y < r.bottom)

/-- Python `int()` applied to a float: truncation toward zero.  pygame applies
this conversion to float coordinates passed to `Rect`. -/
def pytrunc (q : ℚ) : Int := if 0 ≤ q then ⌊q⌋ else -⌊-q⌋

/-- Python `max(0.0, min(1.0, v))`. -/
def clamp01 (q : ℚ) : ℚ := max 0 (min 1 q)

/-! ## Controls widget (src/molecular_dynamics_toy/widgets/controls.py) -/

/-- Python `PlayPauseButton` state. -/
structure PlayPauseButton where
  rect : Rect
  playing : Bool
  hovered : Bool
deriving Repr, DecidableEq

/-- Python `PlayPauseButton.__init__`. -/
def PlayPauseButton.make (rect : Rect) : PlayPauseButton :=
  ⟨rect, false, false⟩

/-- Python `PlayPauseButton.handle_click`: toggles `playing` on a hit. -/
def PlayPauseButton.handle_click (b : PlayPauseButton) (px py : Int) :
    PlayPauseButton × Bool :=
  if b.rect.collidepoint px py then
    ({ b with playing := !b.playing }, true)
  else (b, false)

/-- Python `ResetButton` state. -/
structure ResetButton where
  rect : Rect
  hovered : Bool
deriving Repr, DecidableEq

def ResetButton.make (rect : Rect) : ResetButton := ⟨rect, false⟩

/-- Python `ResetButton.handle_click`: reports a hit, mutates nothing. -/
def ResetButton.handle_click (b : ResetButton) (px py : Int) : Bool :=
  b.rect.collidepoint px py

/-- Python `SpeedControl` state. -/
structure SpeedControl where
  rect : Rect
  speed : Int
  decrease_button_rect : Rect
  text_rect : Rect
  increase_button_rect : Rect
  decrease_hovered : Bool
  increase_hovered : Bool
deriving Repr, DecidableEq

/-- Python `SpeedControl.__init__`: square end buttons of side `rect.height`, text in
the middle, speed floored at 1. -/
def SpeedControl.make (rect : Rect) (initial_speed : Int) : SpeedControl :=
  let button_width := rect.height
  let text_width := rect.width - 2 * button_width
  { rect := rect
    speed := max 1 initial_speed
    decrease_button_rect := ⟨rect.left, rect.top, button_width, rect.height⟩
    text_rect := ⟨rect.left + button_width, rect.top, text_width, rect.height⟩
    increase_button_rect := ⟨rect.right - button_width, rect.top, button_width, rect.height⟩
    decrease_hovered := false
    increase_hovered := false }

/-- Python `SpeedControl.handle_click`: decrease floors at 1, increase is unbounded. -/
def SpeedControl.handle_click (c : SpeedControl) (px py : Int) :
    SpeedControl × Bool :=
  if c.decrease_button_rect.collidepoint px py then
    ({ c with speed := max 1 (c.speed - 1) }, true)
  else if c.increase_button_rect.collidepoint px py then
    ({ c with speed := c.speed + 1 }, true)
  else (c, false)

/-- Python `TemperatureSlider` state; temperatures are Kelvin rationals (Python
floats, exact here since every operation used is rational). -/
structure TemperatureSlider where
  rect : Rect
  temperature : ℚ
  min_temp : ℚ
  max_temp : ℚ
  dragging : Bool
  hovered : Bool
deriving Repr, DecidableEq

/-- Python `TemperatureSlider.__init__` with its default range. -/
def TemperatureSlider.make (rect : Rect) (initial_temp : ℚ := 300)
    (min_temp : ℚ := 0) (max_temp : ℚ := 1000) : TemperatureSlider :=
  ⟨rect, initial_temp, min_temp, max_temp, false, false⟩

/-- Python `TemperatureSlider._get_track_rect`: label height 25 plus a 10 px gap,
10 px side margins, 20 px tall. -/
def TemperatureSlider.track_rect (s : TemperatureSlider) : Rect :=
  ⟨s.rect.left + 10, s.rect.top + 25 + 10, s.rect.width - 2 * 10, 20⟩

/-- Python `TemperatureSlider._get_slider_rect`: the 15×20 handle, horizontal
position a clamped linear map of the temperature; pygame truncates the float
x coordinate toward zero. -/
def TemperatureSlider.slider_rect (s : TemperatureSlider) : Rect :=
  let tr := s.track_rect
  let normalized := clamp01 ((s.temperature - s.min_temp) / (s.max_temp - s.min_temp))
  let slider_x := pytrunc ((tr.left : ℚ) + normalized * ((tr.width : ℚ) - 15))
  let slider_y := tr.centery - 20 / 2
  ⟨slider_x, slider_y, 15, 20⟩

/-- Python `TemperatureSlider._update_from_position`. -/
def TemperatureSlider.update_from_position (s : TemperatureSlider) (x : Int) :
    TemperatureSlider :=
  let tr := s.track_rect
  let normalized := clamp01 (((x : ℚ) - (tr.left : ℚ)) / (tr.width : ℚ))
  { s with temperature := s.min_temp + normalized * (s.max_temp - s.min_temp) }

/-- Python `TemperatureSlider.handle_click`: a hit on the handle starts a drag;
a hit elsewhere on the track jumps the temperature and starts a drag. -/
def TemperatureSlider.handle_click (s : TemperatureSlider) (px py : Int) :
    TemperatureSlider × Bool :=
  if s.slider_rect.collidepoint px py then
    ({ s with dragging := true }, true)
  else if s.track_rect.collidepoint px py then
    ({ s.update_from_position px with dragging := true }, true)
  else (s, false)

/-- Python `TemperatureSlider.handle_release`. -/
def TemperatureSlider.handle_release (s : TemperatureSlider) : TemperatureSlider :=
  { s with dragging := false }

/-- Python `TemperatureSlider.handle_drag`. -/
def TemperatureSlider.handle_drag (s : TemperatureSlider) (px : Int) :
    TemperatureSlider :=
  if s.dragging then s.update_from_position px else s

/-- Python `ControlsWidget` state.  In the source the sub-controls are `Optional`
fields that `__init__` always populates via `_create_controls`; every
reachable state has them, so they are plain fields here. -/
structure ControlsWidget where
  rect : Rect
  play_pause_button : PlayPauseButton
  reset_button : ResetButton
  speed_control : SpeedControl
  temperature_slider : TemperatureSlider
  reset_requested : Bool
deriving Repr, DecidableEq

/-- Python `ControlsWidget._create_controls`: lays the sub-controls out from the
widget rectangle (margin 20, button size 60, spacing 10) while carrying over
the previous play state, speed and temperature. -/
def ControlsWidget.create_controls (rect : Rect) (old_playing : Bool)
    (old_speed : Int) (old_temp : ℚ) (reset_requested : Bool) : ControlsWidget :=
  let margin : Int := 20
  let button_size : Int := 60
  let spacing : Int := 10
  let play_button_rect : Rect :=
    ⟨rect.left + margin, rect.top + margin, button_size, button_size⟩
  let reset_button_rect : Rect :=
    ⟨rect.left + margin + button_size + spacing, rect.top + margin,
      button_size, button_size⟩
  let speed_control_rect : Rect :=
    ⟨rect.left + margin + 2 * (button_size + spacing), rect.top + margin,
      200, button_size⟩
  let slider_rect : Rect :=
    ⟨rect.left + margin, rect.top + margin + button_size + spacing,
      rect.width - 2 * margin, 60⟩
  { rect := rect
    play_pause_button := { PlayPauseButton.make play_button_rect with playing := old_playing }
    reset_button := ResetButton.make reset_button_rect
    speed_control := SpeedControl.make speed_control_rect old_speed
    temperature_slider := TemperatureSlider.make slider_rect old_temp
    reset_requested := reset_requested }

/-- Python `ControlsWidget.__init__`: defaults are paused, speed 1, 300 K. -/
def ControlsWidget.make (rect : Rect) : ControlsWidget :=
  ControlsWidget.create_controls rect false 1 300 false

/-- Python `ControlsWidget.playing` property. -/
def ControlsWidget.playing (w : ControlsWidget) : Bool :=
  w.play_pause_button.playing

/-- Python `ControlsWidget.speed` property. -/
def ControlsWidget.speed (w : ControlsWidget) : Int :=
  w.speed_control.speed

/-- Python `ControlsWidget.temperature` property. -/
def ControlsWidget.temperature (w : ControlsWidget) : ℚ :=
  w.temperature_slider.temperature

/-- Python `ControlsWidget.set_rect`: stores the new rectangle and rebuilds every
sub-control via `_create_controls`, which preserves the current values. -/
def ControlsWidget.set_rect (w : ControlsWidget) (rect : Rect) : ControlsWidget :=
  ControlsWidget.create_controls rect w.play_pause_button.playing
    w.speed_control.speed w.temperature_slider.temperature w.reset_requested

/-! ## Menu (src/molecular_dynamics_toy/widgets/base.py)

Callbacks are effects; they are embedded as abstract action identifiers
(natural numbers) and `handle_event` returns the list of actions fired.
The auto-close wrapper that `add_item` builds around a supplied callback
(run the original callback, then close the menu) is recorded as the
`wrap_close` flag on the stored item. -/

/-- pygame events relevant to the widgets: mouse button down with a button
number and position, and mouse motion. -/
inductive Event where
  | mouseButtonDown (button : Int) (px py : Int)
  | mouseMotion (px py : Int)
  | other
deriving Repr, DecidableEq

/-- A stored `MenuItem`: a `TextButton` that is always enabled, with an
optional callback; `wrap_close` records whether `add_item` wrapped the
callback with the menu-closing step. -/
structure MenuItem where
  rect : Rect
  text : String
  callback : Option Nat
  wrap_close : Bool
  hovered : Bool
deriving Repr, DecidableEq

/-- A `CloseButton`: a plain enabled `Button` with no callback. -/
structure CloseButton where
  rect : Rect
  hovered : Bool
deriving Repr, DecidableEq

/-- Python `Menu` state. -/
structure Menu where
  rect : Rect
  title : String
  visible : Bool
  show_close_button : Bool
  close_on_outside_click : Bool
  auto_close_on_select : Bool
  close_button : Option CloseButton
  items : List MenuItem
deriving Repr, DecidableEq

/-- Python `Menu.__init__`: hidden initially; the 30×30 close button sits 10 px in
from the top-right corner when enabled. -/
def Menu.make (rect : Rect) (title : String := "Menu")
    (show_close_button : Bool := true) (close_on_outside_click : Bool := true)
    (auto_close_on_select : Bool := true) : Menu :=
  { rect := rect
    title := title
    visible := false
    show_close_button := show_close_button
    close_on_outside_click := close_on_outside_click
    auto_close_on_select := auto_close_on_select
    close_button :=
      if show_close_button then
        some ⟨⟨rect.right - 30 - 10, rect.top + 10, 30, 30⟩, false⟩
      else none
    items := [] }

def Menu.openMenu (m : Menu) : Menu := { m with visible := true }

def Menu.closeMenu (m : Menu) : Menu := { m with visible := false }

/-- Python `Menu.add_item`: stacks the new 35 px item below the title area (40 px)
plus margin (15 px) with 5 px spacing; the callback is wrapped with an
auto-close step only when `auto_close_on_select` is set AND a callback was
supplied. -/
def Menu.add_item (m : Menu) (text : String) (callback : Option Nat := none) :
    Menu :=
  let items_top := m.rect.top + 40 + 15
  let item_y := items_top + (m.items.length : Int) * (35 + 5)
  let item_rect : Rect := ⟨m.rect.left + 15, item_y, m.rect.width - 2 * 15, 35⟩
  let wrap := m.auto_close_on_select && callback.isSome
  { m with items := m.items ++ [⟨item_rect, text, callback, wrap, false⟩] }

/-- The item scan inside `Menu.handle_event`: items are tried in order and
the first hit fires its callback (then closes the menu when the stored
callback was auto-close wrapped).  Returns the fired actions, whether the
menu must close, and whether any item was hit. -/
def Menu.scanItems (px py : Int) : List MenuItem → List Nat × Bool × Bool
  | [] => ([], false, false)
  | item :: rest =>
    if item.rect.collidepoint px py then
      (item.callback.toList, item.wrap_close, true)
    else Menu.scanItems px py rest

/-- The part of the primary-press handling in `Menu.handle_event` after the
close-button check: the items in order, then the menu rectangle, then the
outside-click flag. -/
def Menu.afterCloseButton (m : Menu) (px py : Int) : Menu × List Nat × Bool :=
  match Menu.scanItems px py m.items with
  | (fired, closes, true) =>
    (if closes then m.closeMenu else m, fired, true)
  | (_, _, false) =>
    if m.rect.collidepoint px py then (m, [], true)
    else if m.close_on_outside_click then (m.closeMenu, [], true)
    else (m, [], false)

/-- Python `Menu.handle_event`: while hidden nothing is handled.  While visible, a
primary press checks the close button, then the items in order, then whether
the press is inside the menu rectangle, and finally the outside-click flag;
motion updates hover flags but is never reported handled (the literal
behavior of the source, whose final statement returns False). -/
def Menu.handle_event (m : Menu) (e : Event) : Menu × List Nat × Bool :=
  if !m.visible then (m, [], false)
  else
    match e with
    | .mouseButtonDown b px py =>
      if b = 1 then
        match m.close_button with
        | some cb =>
          if cb.rect.collidepoint px py then (m.closeMenu, [], true)
          else Menu.afterCloseButton m px py
        | none => Menu.afterCloseButton m px py
      else (m, [], false)
    | .mouseMotion px py =>
      ({ m with
          close_button := m.close_button.map (fun cb =>
            { cb with hovered := cb.rect.collidepoint px py })
          items := m.items.map (fun it =>
            { it with hovered := it.rect.collidepoint px py }) }, [], false)
    | .other => (m, [], false)

/-! ## Atomic systems and presets (src/molecular_dynamics_toy/data/presets.py)

Positions are exact rationals.  The ASE builders (`molecule`, `bulk`,
`graphene_nanoribbon`) are external black boxes (spec section 6); the
embedding takes them as parameters in an `ExternalLib` record.  The 90-degree
rotations performed by the presets are embedded exactly. -/

structure Vec3 where
  x : ℚ
  y : ℚ
  z : ℚ
deriving Repr, DecidableEq

structure Atom where
  symbol : String
  pos : Vec3
deriving Repr, DecidableEq

/-- An ASE-style atomic system restricted to the shapes this repository
builds: a cubic cell of edge `cell_size` with one periodicity flag for all
three axes. -/
structure AtomicSystem where
  atoms : List Atom
  cell_size : ℚ
  pbc : Bool
deriving Repr, DecidableEq

/-- Rotation by 90 degrees about the x axis (ASE `rotate(90, "x")`). -/
def rotX90 (v : Vec3) : Vec3 := ⟨v.x, -v.z, v.y⟩

/-- Rotation by 90 degrees about the y axis (ASE `rotate(90, "y")`). -/
def rotY90 (v : Vec3) : Vec3 := ⟨v.z, v.y, -v.x⟩

/-- Python `positions.min(axis=0)` along one axis (the sources only apply it to
nonempty systems; the empty case is given a dummy value 0). -/
def axisMin (f : Vec3 → ℚ) : List Atom → ℚ
  | [] => 0
  | a :: rest => rest.foldl (fun acc b => min acc (f b.pos)) (f a.pos)

/-- Python `positions.max(axis=0)` along one axis. -/
def axisMax (f : Vec3 → ℚ) : List Atom → ℚ
  | [] => 0
  | a :: rest => rest.foldl (fun acc b => max acc (f b.pos)) (f a.pos)

/-- ASE `Atoms.center()` for a cubic cell: translate the atoms so the
bounding box of the positions is centered in the cell, axis by axis. -/
def centerAtoms (atoms : List Atom) (cell : ℚ) : List Atom :=
  let tx := (cell - (axisMin Vec3.x atoms + axisMax Vec3.x atoms)) / 2
  let ty := (cell - (axisMin Vec3.y atoms + axisMax Vec3.y atoms)) / 2
  let tz := (cell - (axisMin Vec3.z atoms + axisMax Vec3.z atoms)) / 2
  atoms.map (fun a => { a with pos := ⟨a.pos.x + tx, a.pos.y + ty, a.pos.z + tz⟩ })

/-- The external chemistry library (ASE) as a black-box capability record:
a molecular-geometry database, a cubic conventional-cell crystal builder
(name, structure, lattice constant), and a nanoribbon builder
(width rows, length columns, edge type, saturation). -/
structure ExternalLib where
  molecule : String → List Atom
  bulk : String → String → ℚ → AtomicSystem
  graphene_nanoribbon : Nat → Nat → String → Bool → List Atom

/-- ASE `Atoms.repeat((2, 2, 2))` on a cubic cell: eight copies of the
atoms, each translated by a corner of the original cell, in a doubled
cell. -/
def repeat222 (sys : AtomicSystem) : AtomicSystem :=
  let shift : ℚ → ℚ → ℚ → List Atom := fun i j k => sys.atoms.map (fun a =>
    { a with pos := ⟨a.pos.x + i * sys.cell_size, a.pos.y + j * sys.cell_size,
        a.pos.z + k * sys.cell_size⟩ })
  { atoms := shift 0 0 0 ++ shift 0 0 1 ++ shift 0 1 0 ++ shift 0 1 1 ++
      shift 1 0 0 ++ shift 1 0 1 ++ shift 1 1 0 ++ shift 1 1 1
    cell_size := 2 * sys.cell_size
    pbc := sys.pbc }

/-- Python `_molecule_in_box`: a molecule from the external database, centered in a
cubic cell of edge (largest bounding-box extent + 2 × vacuum), periodic. -/
def molecule_in_box (ext : ExternalLib) (molecule_name : String)
    (vacuum : ℚ := 5) : AtomicSystem :=
  let atoms := ext.molecule molecule_name
  let size_x := axisMax Vec3.x atoms - axisMin Vec3.x atoms
  let size_y := axisMax Vec3.y atoms - axisMin Vec3.y atoms
  let size_z := axisMax Vec3.z atoms - axisMin Vec3.z atoms
  let cell_size := max size_x (max size_y size_z) + 2 * vacuum
  ⟨centerAtoms atoms cell_size, cell_size, true⟩

/-- Python `create_water_molecule`: H2O in a box, then rotated 90 degrees about y. -/
def create_water_molecule (ext : ExternalLib) : AtomicSystem :=
  let sys := molecule_in_box ext "H2O" 5
  { sys with atoms := sys.atoms.map (fun a => { a with pos := rotY90 a.pos }) }

/-- Python `create_ethanol_molecule`. -/
def create_ethanol_molecule (ext : ExternalLib) : AtomicSystem :=
  molecule_in_box ext "CH3CH2OH" 5

/-- Python `create_methane_molecule`. -/
def create_methane_molecule (ext : ExternalLib) : AtomicSystem :=
  molecule_in_box ext "CH4" 5

/-- Python `create_benzene_molecule`. -/
def create_benzene_molecule (ext : ExternalLib) : AtomicSystem :=
  molecule_in_box ext "C6H6" 5

/-- Python `create_co2_molecule`: CO2 in a box, then rotated 90 degrees about y. -/
def create_co2_molecule (ext : ExternalLib) : AtomicSystem :=
  let sys := molecule_in_box ext "CO2" 5
  { sys with atoms := sys.atoms.map (fun a => { a with pos := rotY90 a.pos }) }

/-- Python `create_diamond_lattice`: cubic diamond carbon cell, a = 3.567 (the
2×2×2 repeat in the source is commented out). -/
def create_diamond_lattice (ext : ExternalLib) : AtomicSystem :=
  ext.bulk "C" "diamond" (3567/1000)

/-- Python `create_fcc_gold`: cubic FCC gold cell, a = 4.08, 2×2×2 supercell. -/
def create_fcc_gold (ext : ExternalLib) : AtomicSystem :=
  repeat222 (ext.bulk "Au" "fcc" (408/100))

/-- Python `create_graphene_sheet`: a zigzag nanoribbon built with width parameter
3 and length parameter 4, unsaturated, rotated 90 degrees about x into the
xy plane, centered in a cubic periodic cell whose edge is the larger of the
in-plane extent + 6 and the out-of-plane extent + 10. -/
def create_graphene_sheet (ext : ExternalLib) : AtomicSystem :=
  let ribbon := ext.graphene_nanoribbon 3 4 "zigzag" false
  let rotated := ribbon.map (fun a => { a with pos := rotX90 a.pos })
  let size_x := axisMax Vec3.x rotated - axisMin Vec3.x rotated
  let size_y := axisMax Vec3.y rotated - axisMin Vec3.y rotated
  let size_z := axisMax Vec3.z rotated - axisMin Vec3.z rotated
  let xy_size := max size_x size_y
  let cell_size := max (xy_size + 6) (size_z + 10)
  ⟨centerAtoms rotated cell_size, cell_size, true⟩

/-- Python `create_nacl_crystal`: cubic rock-salt cell, a = 5.64. -/
def create_nacl_crystal (ext : ExternalLib) : AtomicSystem :=
  ext.bulk "NaCl" "rocksalt" (564/100)

/-- Python `create_copper_fcc`: cubic FCC copper cell, a = 3.61, 2×2×2 supercell. -/
def create_copper_fcc (ext : ExternalLib) : AtomicSystem :=
  repeat222 (ext.bulk "Cu" "fcc" (361/100))

/-- Python `create_ice_crystal`: the fully in-repo simplified cubic ice, 8 oxygens
on a cubic grid of spacing 2.76 with two hydrogens each at 0.96 along +x and
+y, centered in a cubic cell of edge 5.52, periodic. -/
def create_ice_crystal : AtomicSystem :=
  let a : ℚ := 276/100
  let opos : List Vec3 :=
    (List.range 2).flatMap (fun i => (List.range 2).flatMap (fun j =>
      (List.range 2).map (fun k => ⟨(i : ℚ) * a, (j : ℚ) * a, (k : ℚ) * a⟩)))
  let oatoms : List Atom := opos.map (fun p => ⟨"O", p⟩)
  let hatoms : List Atom := opos.flatMap (fun p =>
    [⟨"H", ⟨p.x + 96/100, p.y, p.z⟩⟩, ⟨"H", ⟨p.x, p.y + 96/100, p.z⟩⟩])
  let cell_size := 2 * a
  ⟨centerAtoms (oatoms ++ hatoms) cell_size, cell_size, true⟩

/-- The `PRESETS` registry, in source order:
identifier, display name, creation function. -/
def PRESETS : List (String × String × (ExternalLib → AtomicSystem)) :=
  [ ("water", "Water molecule", create_water_molecule),
    ("ice", "Ice crystal", fun _ => create_ice_crystal),
    ("ethanol", "Ethanol molecule", create_ethanol_molecule),
    ("methane", "Methane molecule", create_methane_molecule),
    ("benzene", "Benzene molecule", create_benzene_molecule),
    ("co2", "Carbon dioxide", create_co2_molecule),
    ("diamond", "Diamond lattice", create_diamond_lattice),
    ("gold", "FCC gold", create_fcc_gold),
    ("graphene", "Graphene sheet", create_graphene_sheet),
    ("nacl", "NaCl crystal", create_nacl_crystal),
    ("copper", "FCC copper", create_copper_fcc) ]

/-- Failure kinds raised by the data layer (`ValueError` for an unknown
preset identifier). -/
inductive MDError where
  | invalidInput (msg : String)
deriving Repr, DecidableEq

/-- Python `get_preset_names`: the ordered catalog keys. -/
def get_preset_names : List String := PRESETS.map (fun p => p.1)

/-- Python `get_preset_display_name`: the display name, falling back to echoing the
identifier when unknown. -/
def get_preset_display_name (preset_id : String) : String :=
  match PRESETS.find? (fun p => p.1 = preset_id) with
  | some p => p.2.1
  | none => preset_id

/-- Python `create_preset`: invokes the registered creation function, or raises
`ValueError` for an identifier not in the catalog. -/
def create_preset (ext : ExternalLib) (preset_id : String) :
    Except MDError AtomicSystem :=
  match PRESETS.find? (fun p => p.1 = preset_id) with
  | some p => .ok (p.2.2 ext)
  | none => .error (.invalidInput ("Unknown preset: " ++ preset_id))

/-! ## MD engine (modelled from the spec) and the simulation widget
(src/molecular_dynamics_toy/widgets/simulation.py) -/

/-- Modelled from the spec: the Calculator capability (spec sections 3 and
4.4).  `src/molecular_dynamics_toy/calculators.py` is missing from the
snapshot; a calculator is abstracted to the net effect of one thermostatted
integration step on the atomic system, given the target temperature and
timestep, and it may raise (spec section 4.5 failure semantics). -/
def Calc : Type := AtomicSystem → ℚ → ℚ → Except String AtomicSystem

/-- Modelled from the spec: `MDEngine` (spec section 4.5), whose module
`src/molecular_dynamics_toy/engine.py` is missing from the snapshot (only
its callers and tests are present).  It owns one atomic system, an
integration timestep (default 1.0), a thermostat target temperature (default
300.0) and a default cubic cell (edge 10.0); `nsteps` counts the completed
integration steps. -/
structure MDEngine where
  atoms : AtomicSystem
  timestep : ℚ
  temperature : ℚ
  nsteps : Nat
deriving Repr, DecidableEq

/-- Modelled from the spec: engine construction with an (initially empty)
cubic periodic cell. -/
def MDEngine.make (timestep : ℚ := 1) (temperature : ℚ := 300)
    (cell_size : ℚ := 10) : MDEngine :=
  ⟨⟨[], cell_size, true⟩, timestep, temperature, 0⟩

/-- Modelled from the spec: `add_atom` appends one atom (zero initial
velocity) without validating the position. -/
def MDEngine.add_atom (e : MDEngine) (symbol : String) (p : Vec3) : MDEngine :=
  { e with atoms := { e.atoms with atoms := e.atoms.atoms ++ [⟨symbol, p⟩] } }

/-- Modelled from the spec: `run(steps)` advances the system `steps`
integration steps using the bound calculator; a zero-step or empty-system
call is a no-op that never raises, and a calculator error propagates out of
the engine uncaught. -/
def MDEngine.run (calculator : Calc) : Nat → MDEngine → Except String MDEngine
  | 0, e => .ok e
  | n + 1, e =>
    if e.atoms.atoms.isEmpty then .ok e
    else
      match calculator e.atoms e.temperature e.timestep with
      | .error msg => .error msg
      | .ok sys => MDEngine.run calculator n { e with atoms := sys, nsteps := e.nsteps + 1 }

/-- A log record at a given level. -/
inductive LogEntry where
  | info (msg : String)
  | error (msg : String)
deriving Repr, DecidableEq

/-- Python `SimulationWidget` state.  `selected_element` is the attribute the
application shell assigns each frame. -/
structure SimulationWidget where
  rect : Rect
  engine : MDEngine
  radius_type : String
  selected_element : Option String
  log : List LogEntry
deriving Repr, DecidableEq

/-- Python `SimulationWidget._create_engine`: a fresh engine (timestep 1.0,
temperature 300.0, cell 10.0) seeded with two hydrogens 1.0 apart,
symmetric about the cell center. -/
def SimulationWidget.create_engine : MDEngine :=
  let cell_size : ℚ := 10
  let e := MDEngine.make 1 300 cell_size
  let center := cell_size / 2
  (e.add_atom "H" ⟨center - 1/2, center, center⟩).add_atom "H"
    ⟨center + 1/2, center, center⟩

/-- Python `SimulationWidget.__init__`. -/
def SimulationWidget.make (rect : Rect) (radius_type : String := "covalent") :
    SimulationWidget :=
  ⟨rect, SimulationWidget.create_engine, radius_type, none, []⟩

/-- Python `SimulationWidget.update` — the source signature takes only `playing`
(there is no steps-per-frame parameter): when playing, advance the engine by
one step inside a try/except that logs the exception at error level and
suppresses it, leaving everything else unchanged. -/
def SimulationWidget.update (calculator : Calc) (playing : Bool)
    (w : SimulationWidget) : SimulationWidget :=
  if playing then
    match MDEngine.run calculator 1 w.engine with
    | .ok e => { w with engine := e }
    | .error msg => { w with log := w.log ++ [.error ("MD step failed: " ++ msg)] }
  else w

/-! ## Application shell update phase (src/molecular_dynamics_toy/app.py)

`MDApplication.update` reads several attributes of the widgets by name.
Python resolves these dynamically, so the embedding routes every read
through an attribute table listing exactly the names the classes define,
and models a missing name as `AttributeError` and a call with the wrong
number of arguments as `TypeError`. -/

/-- Python-level failures surfaced by the update phase of the shell. -/
inductive PyError where
  | attributeError (name : String)
  | typeError (msg : String)
deriving Repr, DecidableEq

/-- A dynamically-typed Python value as read off a widget attribute. -/
inductive PyVal where
  | bool (b : Bool)
  | int (n : Int)
  | rat (q : ℚ)
  | obj
  | method
deriving Repr, DecidableEq

def PyVal.toRat : PyVal → ℚ
  | .rat q => q
  | _ => 0

def PyVal.toBool : PyVal → Bool
  | .bool b => b
  | _ => false

/-- Attribute lookup on a `ControlsWidget`: exactly the instance attributes,
properties and methods the class defines.  Any other name — in particular
`timestep` and `steps_per_frame`, which app.py reads — raises
`AttributeError`. -/
def ControlsWidget.getattr (w : ControlsWidget) (name : String) :
    Except PyError PyVal :=
  if name = "playing" then .ok (.bool w.playing)
  else if name = "speed" then .ok (.int w.speed)
  else if name = "temperature" then .ok (.rat w.temperature)
  else if name = "reset_requested" then .ok (.bool w.reset_requested)
  else if name ∈ ["rect", "play_pause_button", "reset_button",
      "speed_control", "temperature_slider"] then .ok .obj
  else if name ∈ ["handle_event", "update", "render", "set_rect",
      "_create_controls"] then .ok .method
  else .error (.attributeError name)

/-- Attribute lookup on a `SimulationWidget`: exactly the names the class
defines (plus `selected_element`, which the shell assigns each frame).
There is no `reset` method, so that lookup raises `AttributeError`. -/
def SimulationWidget.getattr (name : String) : Except PyError PyVal :=
  if name ∈ ["rect", "engine", "calculator", "radius_type", "atom_radii",
      "scale", "selected_element"] then .ok .obj
  else if name ∈ ["update", "render", "handle_event", "set_rect",
      "_create_engine", "_get_cell_rect", "_render_atoms"] then .ok .method
  else .error (.attributeError name)

/-- The Python call `self.simulation_widget.update(args...)`: the method is
declared `def update(self, playing)`, so a call with any number of
positional arguments other than one raises `TypeError`. -/
def SimulationWidget.update_call (calculator : Calc) (w : SimulationWidget)
    (args : List PyVal) : Except PyError SimulationWidget :=
  match args with
  | [p] => .ok (SimulationWidget.update calculator p.toBool w)
  | _ => .error (.typeError "update takes 2 positional arguments")

/-- Application shell state for the update phase: the two widgets it writes
to plus the periodic-table selection it reads (the picker widget source is
missing from the snapshot; per the spec it is an advisory read-only
property, modelled as an abstract optional element symbol). -/
structure MDApplication where
  controls_widget : ControlsWidget
  simulation_widget : SimulationWidget
  picker_selected : Option String
deriving Repr, DecidableEq

/-- Python `MDApplication.update` (app.py lines 103-127), statement by statement:
copy the picker selection; on a pending reset request call
`simulation_widget.reset()` (an `AttributeError`, since `SimulationWidget`
defines no such method) and clear the flag; copy `controls_widget.temperature`
into the engine; copy `controls_widget.timestep` into the engine (an
`AttributeError`, since `ControlsWidget` exposes no timestep); finally call
`simulation_widget.update` with `controls_widget.playing` and
`controls_widget.steps_per_frame` (another missing attribute, and a
two-argument call against a one-parameter method). -/
def MDApplication.update (calculator : Calc) (a : MDApplication) :
    Except PyError MDApplication := do
  let a := { a with simulation_widget :=
    { a.simulation_widget with selected_element := a.picker_selected } }
  let a ←
    if a.controls_widget.reset_requested then do
      let _ ← SimulationWidget.getattr "reset"
      pure { a with controls_widget :=
        { a.controls_widget with reset_requested := false } }
    else pure a
  let tv ← a.controls_widget.getattr "temperature"
  let a := { a with simulation_widget := { a.simulation_widget with
    engine := { a.simulation_widget.engine with temperature := tv.toRat } } }
  let dv ← a.controls_widget.getattr "timestep"
  let a := { a with simulation_widget := { a.simulation_widget with
    engine := { a.simulation_widget.engine with timestep := dv.toRat } } }
  let pv ← a.controls_widget.getattr "playing"
  let sv ← a.controls_widget.getattr "steps_per_frame"
  let sw ← SimulationWidget.update_call calculator a.simulation_widget [pv, sv]
  pure { a with simulation_widget := sw }

/-! ## Concrete fixtures used by witnesses and counterexamples -/

/-- A calculator stub whose integration step is the identity. -/
def calcOk : Calc := fun sys _ _ => .ok sys

/-- A calculator stub that always raises. -/
def calcFail : Calc := fun _ _ _ => .error "boom"

/-- The simulation widget at its construction-time default layout. -/
def simDefault : SimulationWidget := SimulationWidget.make ⟨50, 50, 700, 700⟩

/-- The application state right after construction at the default layout. -/
def appDefault : MDApplication :=
  { controls_widget := ControlsWidget.make ⟨800, 500, 550, 250⟩
    simulation_widget := simDefault
    picker_selected := none }

/-- Python `appDefault` after a click on the Reset control has set the flag. -/
def appResetRequested : MDApplication :=
  { appDefault with controls_widget :=
    { appDefault.controls_widget with reset_requested := true } }

/-! ## C1: the per-frame parameter copy of the shell -/

/-- C1: the claim reads "on every frame of the update
phase of the Application Shell, the only engine parameter copied from the Controls Widget into the MD
Engine is the thermostat temperature; the integration timestep of the engine
stays fixed at its construction-time value".  The code disagrees with
itself: app.py line 120 also executes
`self.simulation_widget.engine.timestep = self.controls_widget.timestep`,
and `ControlsWidget` defines no `timestep` attribute, so every frame whose
update phase reaches that line (any frame without a pending reset request)
raises AttributeError for the name timestep. -/
theorem app_update_raises_on_timestep_read (calculator : Calc)
    (a : MDApplication) (h : a.controls_widget.reset_requested = false) :
    MDApplication.update calculator a = .error (.attributeError "timestep") := by
  simp [MDApplication.update, ControlsWidget.getattr, h]
  rfl

/-- C1 witness: the default application state has no pending reset, and its
update phase raises AttributeError for the name timestep. -/
theorem app_update_raises_on_timestep_read_witness :
    appDefault.controls_widget.reset_requested = false ∧
    MDApplication.update calcOk appDefault = .error (.attributeError "timestep") :=
  ⟨rfl, app_update_raises_on_timestep_read calcOk appDefault rfl⟩

/-! ## C3: reset -/

/-- C3: the claim reads "calling reset() on the Simulation Widget
re-initializes its engine to the default configuration of the constructor".
`SimulationWidget` defines no `reset` method at all, yet app.py line 114
calls `self.simulation_widget.reset()` whenever the reset
flag of the Controls Widget is set, so the frame in which the user clicks Reset raises
AttributeError for the name reset. -/
theorem app_update_raises_on_reset_call (calculator : Calc)
    (a : MDApplication) (h : a.controls_widget.reset_requested = true) :
    MDApplication.update calculator a = .error (.attributeError "reset") := by
  simp [MDApplication.update, SimulationWidget.getattr, h]
  rfl

/-- C3 witness: with the reset flag set, the update phase raises
AttributeError for the name reset. -/
theorem app_update_raises_on_reset_call_witness :
    appResetRequested.controls_widget.reset_requested = true ∧
    MDApplication.update calcOk appResetRequested = .error (.attributeError "reset") :=
  ⟨rfl, app_update_raises_on_reset_call calcOk appResetRequested rfl⟩

/-! ## C2: steps per frame -/

/-- C2: the claim reads "calling the update of the Simulation Widget with
playing=true and steps_per_frame=n advances its engine by exactly n
integration steps".  The source method is declared `def update(self,
playing)` with no steps-per-frame parameter: it advances the engine by
exactly one step whenever playing (and not at all otherwise), and the
two-argument call the shell makes against it raises TypeError. -/
theorem sim_update_advances_exactly_one_step (calculator : Calc)
    (w : SimulationWidget) (sys : AtomicSystem)
    (h1 : w.engine.atoms.atoms.isEmpty = false)
    (h2 : calculator w.engine.atoms w.engine.temperature w.engine.timestep = .ok sys) :
    (SimulationWidget.update calculator true w).engine.nsteps = w.engine.nsteps + 1 ∧
    SimulationWidget.update calculator false w = w ∧
    SimulationWidget.update_call calculator w [.bool true, .int 5] =
      .error (.typeError "update takes 2 positional arguments") := by
  refine ⟨?_, rfl, rfl⟩
  simp [SimulationWidget.update, MDEngine.run, h1, h2]

/-- C2 witness: on the default two-hydrogen widget with the identity-step
calculator, one playing update advances exactly one integration step. -/
theorem sim_update_advances_exactly_one_step_witness :
    (SimulationWidget.update calcOk true simDefault).engine.nsteps =
      simDefault.engine.nsteps + 1 ∧
    SimulationWidget.update calcOk false simDefault = simDefault ∧
    SimulationWidget.update_call calcOk simDefault [.bool true, .int 5] =
      .error (.typeError "update takes 2 positional arguments") :=
  sim_update_advances_exactly_one_step calcOk simDefault
    simDefault.engine.atoms (by decide) rfl

/-! ## C4: the physics-step try/except -/

/-- C4: any exception raised while advancing the engine inside the
per-frame update of the Simulation Widget is caught at that call site, logged at
error level with the exception detail, and suppressed: the update returns
normally with every widget field other than the appended log entry (in
particular the engine and its atomic positions) unchanged. -/
theorem sim_update_catches_and_logs_engine_error (calculator : Calc)
    (w : SimulationWidget) (msg : String)
    (h1 : w.engine.atoms.atoms.isEmpty = false)
    (h2 : calculator w.engine.atoms w.engine.temperature w.engine.timestep = .error msg) :
    SimulationWidget.update calculator true w =
      { w with log := w.log ++ [.error ("MD step failed: " ++ msg)] } := by
  simp [SimulationWidget.update, MDEngine.run, h1, h2]

/-- C4 witness: a playing update against an always-raising calculator
returns with the engine untouched and one error-level log entry. -/
theorem sim_update_catches_and_logs_engine_error_witness :
    SimulationWidget.update calcFail true simDefault =
      { simDefault with log := simDefault.log ++ [.error ("MD step failed: " ++ "boom")] } :=
  sim_update_catches_and_logs_engine_error calcFail simDefault "boom" (by decide) rfl

/-! ## C8: resize preserves control values -/

/-- C8: setting a new rectangle on a Controls Widget recomputes every
sub-control layout rectangle from the new rectangle while leaving the
playing flag, the integer speed (which every reachable widget keeps at 1 or
more) and the temperature value unchanged. -/
theorem controls_set_rect_preserves_values (w : ControlsWidget) (r : Rect)
    (h : 1 ≤ w.speed_control.speed) :
    (w.set_rect r).playing = w.playing ∧
    (w.set_rect r).speed = w.speed ∧
    (w.set_rect r).temperature = w.temperature ∧
    (w.set_rect r).rect = r ∧
    (w.set_rect r).play_pause_button.rect = ⟨r.left + 20, r.top + 20, 60, 60⟩ ∧
    (w.set_rect r).reset_button.rect = ⟨r.left + 20 + 60 + 10, r.top + 20, 60, 60⟩ ∧
    (w.set_rect r).speed_control.rect =
      ⟨r.left + 20 + 2 * (60 + 10), r.top + 20, 200, 60⟩ ∧
    (w.set_rect r).temperature_slider.rect =
      ⟨r.left + 20, r.top + 20 + 60 + 10, r.width - 2 * 20, 60⟩ := by
  refine ⟨rfl, ?_, rfl, rfl, rfl, rfl, rfl, rfl⟩
  show (SpeedControl.make _ w.speed_control.speed).speed = w.speed_control.speed
  simpa [SpeedControl.make] using max_eq_right h

/-- A controls widget whose play state, speed and temperature have all been
changed from their defaults (playing, speed 5, 750 K). -/
def controlsChanged : ControlsWidget :=
  ControlsWidget.create_controls ⟨800, 500, 550, 250⟩ true 5 750 false

/-- C8 witness: resizing the changed widget preserves all three values. -/
theorem controls_set_rect_preserves_values_witness :
    (controlsChanged.set_rect ⟨0, 0, 600, 300⟩).playing = controlsChanged.playing ∧
    (controlsChanged.set_rect ⟨0, 0, 600, 300⟩).speed = controlsChanged.speed ∧
    (controlsChanged.set_rect ⟨0, 0, 600, 300⟩).temperature = controlsChanged.temperature ∧
    (controlsChanged.set_rect ⟨0, 0, 600, 300⟩).rect = ⟨0, 0, 600, 300⟩ ∧
    (controlsChanged.set_rect ⟨0, 0, 600, 300⟩).play_pause_button.rect = ⟨20, 20, 60, 60⟩ ∧
    (controlsChanged.set_rect ⟨0, 0, 600, 300⟩).reset_button.rect = ⟨90, 20, 60, 60⟩ ∧
    (controlsChanged.set_rect ⟨0, 0, 600, 300⟩).speed_control.rect = ⟨160, 20, 200, 60⟩ ∧
    (controlsChanged.set_rect ⟨0, 0, 600, 300⟩).temperature_slider.rect = ⟨20, 90, 560, 60⟩ := by
  have h := controls_set_rect_preserves_values controlsChanged ⟨0, 0, 600, 300⟩ (by decide)
  simpa using h

/-! ## C7 and C10: menu click semantics -/

/-- Unfolding of `Rect.collidepoint` hits into linear arithmetic. -/
theorem Rect.collidepoint_eq_true_iff (r : Rect) (x y : Int) :
    r.collidepoint x y = true ↔
      (r.left ≤ x ∧ x < r.left + r.width ∧ r.top ≤ y ∧ y < r.top + r.height) := by
  simp [Rect.collidepoint, Rect.right, Rect.bottom, and_assoc]

/-- Unfolding of `Rect.collidepoint` misses into linear arithmetic. -/
theorem Rect.collidepoint_eq_false_iff (r : Rect) (x y : Int) :
    r.collidepoint x y = false ↔
      ¬(r.left ≤ x ∧ x < r.left + r.width ∧ r.top ≤ y ∧ y < r.top + r.height) := by
  rw [← Rect.collidepoint_eq_true_iff, Bool.eq_false_iff, ne_eq]

/-- A click that misses every item leaves the item scan empty-handed. -/
theorem Menu.scanItems_of_miss (px py : Int) :
    ∀ l : List MenuItem, l.all (fun it => !it.rect.collidepoint px py) = true →
      Menu.scanItems px py l = ([], false, false)
  | [], _ => rfl
  | item :: rest, h => by
    rw [List.all_cons, Bool.and_eq_true] at h
    have h0 : item.rect.collidepoint px py = false := by
      simpa using h.1
    rw [Menu.scanItems, if_neg (by simp [h0])]
    exact Menu.scanItems_of_miss px py rest h.2

/-- C7 (amended): for every open menu, a primary click outside the menu
rectangle that hits neither the close button nor any item closes the menu
and is reported handled when close-on-outside-click is set, and leaves the
menu unchanged and is reported NOT handled when the flag is off. -/
theorem menu_outside_click_handled_iff_flag (m : Menu) (px py : Int)
    (hvis : m.visible = true)
    (hout : m.rect.collidepoint px py = false)
    (hcb : m.close_button.all (fun cb => !cb.rect.collidepoint px py) = true)
    (hitems : m.items.all (fun it => !it.rect.collidepoint px py) = true) :
    (m.close_on_outside_click = true →
      m.handle_event (.mouseButtonDown 1 px py) = (m.closeMenu, [], true)) ∧
    (m.close_on_outside_click = false →
      m.handle_event (.mouseButtonDown 1 px py) = (m, [], false)) := by
  have hscan := Menu.scanItems_of_miss px py m.items hitems
  have hafter : Menu.afterCloseButton m px py =
      (if m.close_on_outside_click then m.closeMenu else m, ([] : List Nat),
        m.close_on_outside_click) := by
    unfold Menu.afterCloseButton
    rw [hscan]
    cases hflag : m.close_on_outside_click <;> simp [hout, hflag]
  have hmain : m.handle_event (.mouseButtonDown 1 px py) =
      (if m.close_on_outside_click then m.closeMenu else m, ([] : List Nat),
        m.close_on_outside_click) := by
    unfold Menu.handle_event
    cases hc : m.close_button with
    | none => simp [hvis, hc, hafter]
    | some cb =>
      have hcbmiss : cb.rect.collidepoint px py = false := by
        rw [hc] at hcb
        simpa [Option.all] using hcb
      simp [hvis, hc, hcbmiss, hafter]
  constructor <;> intro hflag <;> rw [hmain, hflag] <;> simp

/-- The menu from the outside-click test of the repository with the
close-on-outside-click flag off: default 300×400 geometry at (100, 100),
opened. -/
def menuNoOutsideClose : Menu :=
  (Menu.make ⟨100, 100, 300, 400⟩ "Test Menu" true false true).openMenu

/-- The same menu with the close-on-outside-click flag on. -/
def menuOutsideClose : Menu :=
  (Menu.make ⟨100, 100, 300, 400⟩ "Test Menu" true true true).openMenu

/-- C7 counterexample: the claim says an outside primary click is reported
handled regardless of the close-on-outside-click flag; with the flag off, a
click at (50, 50) — outside the menu — is in fact reported NOT handled
(though the menu does stay open). -/
theorem menu_outside_click_counterexample :
    menuNoOutsideClose.close_on_outside_click = false ∧
    menuNoOutsideClose.visible = true ∧
    menuNoOutsideClose.rect.collidepoint 50 50 = false ∧
    (menuNoOutsideClose.handle_event (.mouseButtonDown 1 50 50)).2.2 = false ∧
    (menuNoOutsideClose.handle_event (.mouseButtonDown 1 50 50)).1.visible = true := by
  decide

/-- C7 witness: both flag settings of the amended statement at the concrete
test menus and the concrete outside click (50, 50). -/
theorem menu_outside_click_handled_iff_flag_witness :
    menuOutsideClose.handle_event (.mouseButtonDown 1 50 50) =
      (menuOutsideClose.closeMenu, [], true) ∧
    menuNoOutsideClose.handle_event (.mouseButtonDown 1 50 50) =
      (menuNoOutsideClose, [], false) :=
  ⟨(menu_outside_click_handled_iff_flag menuOutsideClose 50 50 rfl (by decide)
      (by decide) (by decide)).1 rfl,
    (menu_outside_click_handled_iff_flag menuNoOutsideClose 50 50 rfl (by decide)
      (by decide) (by decide)).2 rfl⟩

/-- C10: on a menu built with auto-close-on-select enabled, an item added
with no callback is stored without the auto-close wrapper (the wrapper is
applied exactly when a callback is supplied), and a primary click on that
item is reported handled, fires nothing, and leaves the menu visible and
otherwise unchanged. -/
theorem menu_item_no_callback_keeps_menu_open (r : Rect) (title t : String)
    (scb coc : Bool) (hw : 31 ≤ r.width) :
    ((Menu.make r title scb coc true).add_item t none).items =
      [⟨⟨r.left + 15, r.top + 40 + 15, r.width - 30, 35⟩, t, none, false, false⟩] ∧
    (∀ k : Nat, ((Menu.make r title scb coc true).add_item t (some k)).items.map
        MenuItem.wrap_close = [true]) ∧
    ((Menu.make r title scb coc true).add_item t none).openMenu.handle_event
        (.mouseButtonDown 1 (r.left + 15 + (r.width - 30) / 2)
          (r.top + 40 + 15 + 17)) =
      (((Menu.make r title scb coc true).add_item t none).openMenu, [], true) := by
  have hitems : ((Menu.make r title scb coc true).add_item t none).items =
      [⟨⟨r.left + 15, r.top + 40 + 15, r.width - 30, 35⟩, t, none, false, false⟩] := by
    simp [Menu.make, Menu.add_item]
  refine ⟨hitems, ?_, ?_⟩
  · intro k
    simp [Menu.make, Menu.add_item]
  · have hmenu : ((Menu.make r title scb coc true).add_item t none).openMenu =
        { rect := r, title := title, visible := true, show_close_button := scb,
          close_on_outside_click := coc, auto_close_on_select := true,
          close_button := if scb then
            some ⟨⟨r.right - 30 - 10, r.top + 10, 30, 30⟩, false⟩ else none,
          items := [⟨⟨r.left + 15, r.top + 40 + 15, r.width - 30, 35⟩, t,
            none, false, false⟩] } := by
      simp [Menu.make, Menu.add_item, Menu.openMenu]
    rw [hmenu]
    have hitem_hit : Rect.collidepoint ⟨r.left + 15, r.top + 40 + 15, r.width - 30, 35⟩
        (r.left + 15 + (r.width - 30) / 2) (r.top + 40 + 15 + 17) = true := by
      rw [Rect.collidepoint_eq_true_iff]
      dsimp only
      omega
    cases hscb : scb with
    | false =>
      simp [Menu.handle_event, Menu.afterCloseButton, Menu.scanItems, hitem_hit]
    | true =>
      have hcbmiss : Rect.collidepoint ⟨r.right - 30 - 10, r.top + 10, 30, 30⟩
          (r.left + 15 + (r.width - 30) / 2) (r.top + 40 + 15 + 17) = false := by
        rw [Rect.collidepoint_eq_false_iff]
        dsimp only
        omega
      simp [Menu.handle_event, Menu.afterCloseButton, Menu.scanItems, hitem_hit, hcbmiss]

/-- C10 witness: the concrete menu at (100, 100) with a callback-free item,
clicked at the item center. -/
theorem menu_item_no_callback_keeps_menu_open_witness :
    ((Menu.make ⟨100, 100, 300, 400⟩ "T" true true true).add_item "Test" none).items =
      [⟨⟨115, 155, 270, 35⟩, "Test", none, false, false⟩] ∧
    (∀ k : Nat, (((Menu.make ⟨100, 100, 300, 400⟩ "T" true true true).add_item "Test"
        (some k)).items.map MenuItem.wrap_close) = [true]) ∧
    ((Menu.make ⟨100, 100, 300, 400⟩ "T" true true true).add_item "Test" none).openMenu.handle_event
        (.mouseButtonDown 1 250 172) =
      (((Menu.make ⟨100, 100, 300, 400⟩ "T" true true true).add_item "Test" none).openMenu,
        [], true) := by
  have h := menu_item_no_callback_keeps_menu_open ⟨100, 100, 300, 400⟩ "T" "Test"
    true true (by decide)
  simpa using h

/-! ## C6: temperature slider clamping and edge behavior -/

theorem floor_le_pytrunc (q : ℚ) : ⌊q⌋ ≤ pytrunc q := by
  unfold pytrunc
  split
  · exact le_refl _
  · have h1 : (⌊q⌋ : ℚ) ≤ q := Int.floor_le q
    have h2 : (⌊-q⌋ : ℚ) ≤ -q := Int.floor_le (-q)
    have h3 : (⌊q⌋ : ℚ) ≤ -(⌊-q⌋ : ℚ) := by linarith
    exact_mod_cast h3

theorem pytrunc_cast_le_add_one (q : ℚ) : (pytrunc q : ℚ) ≤ q + 1 := by
  unfold pytrunc
  split
  · have := Int.floor_le q
    linarith
  · have := Int.lt_floor_add_one (-q)
    push_cast
    linarith

/-- The handle geometry of a freshly-made slider (300 K in [0, 1000]): the
clamped normalized position is 3/10, so a hit on the handle is the stated
linear-arithmetic condition on the truncated handle abscissa. -/
theorem slider_hit_iff_default (r : Rect) (x y : Int) :
    (TemperatureSlider.make r).slider_rect.collidepoint x y = true ↔
      (pytrunc (((r.left + 10 : Int) : ℚ) +
          3 / 10 * (((r.width - 2 * 10 : Int) : ℚ) - 15)) ≤ x ∧
        x < pytrunc (((r.left + 10 : Int) : ℚ) +
          3 / 10 * (((r.width - 2 * 10 : Int) : ℚ) - 15)) + 15 ∧
        r.top + 35 ≤ y ∧ y < r.top + 35 + 20) := by
  have hcl : clamp01 (((300 : ℚ) - 0) / (1000 - 0)) = 3 / 10 := by
    norm_num [clamp01]
  have hleft : (TemperatureSlider.make r).slider_rect.left =
      pytrunc (((r.left + 10 : Int) : ℚ) +
        3 / 10 * (((r.width - 2 * 10 : Int) : ℚ) - 15)) := by
    show pytrunc (((r.left + 10 : Int) : ℚ) +
      clamp01 (((300 : ℚ) - 0) / (1000 - 0)) *
        (((r.width - 2 * 10 : Int) : ℚ) - 15)) = _
    rw [hcl]
  have htop : (TemperatureSlider.make r).slider_rect.top = r.top + 35 := by
    show r.top + 25 + 10 + 20 / 2 - 20 / 2 = r.top + 35
    omega
  have hwidth : (TemperatureSlider.make r).slider_rect.width = 15 := rfl
  have hheight : (TemperatureSlider.make r).slider_rect.height = 20 := rfl
  rw [Rect.collidepoint_eq_true_iff, hleft, htop, hwidth, hheight]

/-- The track geometry of a slider. -/
theorem track_rect_make (r : Rect) :
    (TemperatureSlider.make r).track_rect =
      ⟨r.left + 10, r.top + 25 + 10, r.width - 2 * 10, 20⟩ := rfl

/-- A hit on the track of a slider, as linear arithmetic. -/
theorem track_hit_iff (r : Rect) (x y : Int) :
    (TemperatureSlider.make r).track_rect.collidepoint x y = true ↔
      (r.left + 10 ≤ x ∧ x < r.left + 10 + (r.width - 2 * 10) ∧
        r.top + 25 + 10 ≤ y ∧ y < r.top + 25 + 10 + 20) := by
  rw [track_rect_make, Rect.collidepoint_eq_true_iff]

/-- C6 (amended): for a default-range slider on any widget rectangle whose
track is at least 50 px wide, a primary click anywhere left of the track
leaves the temperature at its 300 K value (hence at or above min_temp), a
click at or beyond the exclusive right edge of the track leaves it unchanged
(hence at or below max_temp), and a click at the rightmost coordinate
inside the track — one pixel left of the exclusive right edge — jumps the
temperature to within 20 K of 1000.  A click exactly at coordinate
track.right lies outside the track (pygame rectangles exclude their right
edge) and does nothing. -/
theorem temperature_slider_clamp_and_edge (r : Rect) (hw : 70 ≤ r.width) :
    (∀ x y : Int, x < (TemperatureSlider.make r).track_rect.left →
      ((TemperatureSlider.make r).handle_click x y).1.temperature = 300 ∧
      (TemperatureSlider.make r).min_temp ≤
        ((TemperatureSlider.make r).handle_click x y).1.temperature) ∧
    (∀ x y : Int, (TemperatureSlider.make r).track_rect.right ≤ x →
      ((TemperatureSlider.make r).handle_click x y).1.temperature = 300 ∧
      ((TemperatureSlider.make r).handle_click x y).1.temperature ≤
        (TemperatureSlider.make r).max_temp) ∧
    |((TemperatureSlider.make r).handle_click
        ((TemperatureSlider.make r).track_rect.right - 1)
        (TemperatureSlider.make r).track_rect.centery).1.temperature - 1000| ≤ 20 := by
  have hwQ : (70 : ℚ) ≤ (r.width : ℚ) := by exact_mod_cast hw
  set E : ℚ := ((r.left + 10 : Int) : ℚ) +
      3 / 10 * (((r.width - 2 * 10 : Int) : ℚ) - 15) with hE
  have hE_low : r.left + 10 ≤ pytrunc E := by
    refine le_trans (Int.le_floor.mpr ?_) (floor_le_pytrunc E)
    rw [hE]
    push_cast
    linarith
  have hE_high : pytrunc E + 15 ≤ r.left + 10 + (r.width - 2 * 10) - 1 := by
    have h1 : (pytrunc E : ℚ) ≤ E + 1 := pytrunc_cast_le_add_one E
    have h3 : E + 16 ≤ ((r.left + 10 + (r.width - 2 * 10) - 1 : Int) : ℚ) := by
      rw [hE]
      push_cast
      linarith
    have h2 : (pytrunc E : ℚ) + 15 ≤
        ((r.left + 10 + (r.width - 2 * 10) - 1 : Int) : ℚ) := by linarith
    exact_mod_cast h2
  refine ⟨?_, ?_, ?_⟩
  · intro x y hx
    rw [track_rect_make] at hx
    dsimp only at hx
    have hA : (TemperatureSlider.make r).slider_rect.collidepoint x y = false :=
      Bool.eq_false_iff.mpr (by rw [Ne, slider_hit_iff_default, ← hE]; omega)
    have hB : (TemperatureSlider.make r).track_rect.collidepoint x y = false :=
      Bool.eq_false_iff.mpr (by rw [Ne, track_hit_iff]; omega)
    unfold TemperatureSlider.handle_click
    rw [hA, hB]
    simp only [Bool.false_eq_true, if_false]
    exact ⟨rfl, by norm_num [TemperatureSlider.make]⟩
  · intro x y hx
    rw [track_rect_make] at hx
    dsimp only [Rect.right] at hx
    have hA : (TemperatureSlider.make r).slider_rect.collidepoint x y = false :=
      Bool.eq_false_iff.mpr (by rw [Ne, slider_hit_iff_default, ← hE]; omega)
    have hB : (TemperatureSlider.make r).track_rect.collidepoint x y = false :=
      Bool.eq_false_iff.mpr (by rw [Ne, track_hit_iff]; omega)
    unfold TemperatureSlider.handle_click
    rw [hA, hB]
    simp only [Bool.false_eq_true, if_false]
    exact ⟨rfl, by norm_num [TemperatureSlider.make]⟩
  · rw [track_rect_make]
    dsimp only [Rect.right, Rect.centery]
    have hA : (TemperatureSlider.make r).slider_rect.collidepoint
        (r.left + 10 + (r.width - 2 * 10) - 1) (r.top + 25 + 10 + 20 / 2) = false :=
      Bool.eq_false_iff.mpr (by rw [Ne, slider_hit_iff_default, ← hE]; omega)
    have hB : (TemperatureSlider.make r).track_rect.collidepoint
        (r.left + 10 + (r.width - 2 * 10) - 1) (r.top + 25 + 10 + 20 / 2) = true := by
      rw [track_hit_iff]
      omega
    unfold TemperatureSlider.handle_click
    rw [if_neg (by rw [hA]; simp), if_pos hB]
    dsimp only
    have hmin : (TemperatureSlider.make r).min_temp = 0 := rfl
    have hmax : (TemperatureSlider.make r).max_temp = 1000 := rfl
    unfold TemperatureSlider.update_from_position
    rw [track_rect_make]
    dsimp only
    rw [hmin, hmax]
    have hW50 : (50 : ℚ) ≤ ((r.width - 2 * 10 : Int) : ℚ) := by
      push_cast
      linarith
    have hx0 : ((r.left + 10 + (r.width - 2 * 10) - 1 : Int) : ℚ) -
        ((r.left + 10 : Int) : ℚ) = ((r.width - 2 * 10 : Int) : ℚ) - 1 := by
      push_cast
      ring
    rw [hx0]
    generalize hWg : ((r.width - 2 * 10 : Int) : ℚ) = W at hW50 ⊢
    have hWpos : (0 : ℚ) < W := by linarith
    have hclamp : clamp01 ((W - 1) / W) = (W - 1) / W := by
      unfold clamp01
      rw [min_eq_right (by rw [div_le_one hWpos]; linarith),
        max_eq_right (div_nonneg (by linarith) (by linarith))]
    rw [hclamp]
    have heq : (0 : ℚ) + (W - 1) / W * (1000 - 0) - 1000 = -(1000 / W) := by
      field_simp
      ring
    rw [heq, abs_neg, abs_of_nonneg (div_nonneg (by norm_num) (by linarith))]
    rw [div_le_iff₀ hWpos]
    linarith

/-- The temperature slider of the test suite of the repository: a default slider
on the rectangle (10, 10, 400, 60); its track spans x in [20, 400). -/
def sliderDefault : TemperatureSlider := TemperatureSlider.make ⟨10, 10, 400, 60⟩

/-- C6 counterexample: the claim says a click exactly at the right
edge of the track results in a temperature within 20 K of 1000; on the default slider of
the test suite a primary click at x = track.right (= 400) misses the track,
whose right edge is exclusive, so the click is not handled, the temperature
stays at 300 K, and 300 K is 700 K away from 1000. -/
theorem temperature_slider_right_edge_counterexample :
    sliderDefault.track_rect.right = 400 ∧
    sliderDefault.track_rect.centery = 55 ∧
    (sliderDefault.handle_click 400 55).1.temperature = 300 ∧
    (sliderDefault.handle_click 400 55).2 = false ∧
    ¬(|(sliderDefault.handle_click 400 55).1.temperature - 1000| ≤ 20) := by
  have hA : sliderDefault.slider_rect.collidepoint 400 55 = false := by
    rw [Bool.eq_false_iff, ne_eq]
    unfold sliderDefault
    rw [slider_hit_iff_default]
    norm_num [pytrunc]
  have hB : sliderDefault.track_rect.collidepoint 400 55 = false := by
    rw [Bool.eq_false_iff, ne_eq]
    unfold sliderDefault
    rw [track_hit_iff]
    norm_num
  have hclick : sliderDefault.handle_click 400 55 = (sliderDefault, false) := by
    unfold TemperatureSlider.handle_click
    rw [if_neg (by rw [hA]; simp), if_neg (by rw [hB]; simp)]
  refine ⟨by decide, by decide, ?_, ?_, ?_⟩
  · rw [hclick]
    rfl
  · rw [hclick]
  · rw [hclick]
    norm_num [sliderDefault, TemperatureSlider.make]

/-- C6 witness: the amended statement instantiated at the test rectangle —
a far-left click (x = -100) and a far-right click (x = 500) leave the
temperature clamped at 300 K, and a click at x = 399 = track.right - 1
lands within 20 K of 1000. -/
theorem temperature_slider_clamp_and_edge_witness :
    ((TemperatureSlider.make ⟨10, 10, 400, 60⟩).handle_click (-100) 55).1.temperature
      = 300 ∧
    ((TemperatureSlider.make ⟨10, 10, 400, 60⟩).handle_click 500 55).1.temperature
      = 300 ∧
    |((TemperatureSlider.make ⟨10, 10, 400, 60⟩).handle_click
        ((TemperatureSlider.make ⟨10, 10, 400, 60⟩).track_rect.right - 1)
        (TemperatureSlider.make ⟨10, 10, 400, 60⟩).track_rect.centery).1.temperature
      - 1000| ≤ 20 :=
  ⟨((temperature_slider_clamp_and_edge ⟨10, 10, 400, 60⟩ (by decide)).1 (-100) 55
      (by decide)).1,
    ((temperature_slider_clamp_and_edge ⟨10, 10, 400, 60⟩ (by decide)).2.1 500 55
      (by decide)).1,
    (temperature_slider_clamp_and_edge ⟨10, 10, 400, 60⟩ (by decide)).2.2⟩

/-! ## Bounding-box arithmetic for the preset generator -/

theorem axisMin_map_pos (f : Vec3 → ℚ) (h : Vec3 → Vec3) (l : List Atom) :
    axisMin f (l.map (fun a => { a with pos := h a.pos })) =
      axisMin (fun v => f (h v)) l := by
  cases l with
  | nil => rfl
  | cons a rest => simp only [List.map_cons, axisMin, List.foldl_map]

theorem axisMax_map_pos (f : Vec3 → ℚ) (h : Vec3 → Vec3) (l : List Atom) :
    axisMax f (l.map (fun a => { a with pos := h a.pos })) =
      axisMax (fun v => f (h v)) l := by
  cases l with
  | nil => rfl
  | cons a rest => simp only [List.map_cons, axisMax, List.foldl_map]

theorem foldl_min_add (f : Vec3 → ℚ) (c : ℚ) :
    ∀ (l : List Atom) (init : ℚ),
      l.foldl (fun acc b => min acc (f b.pos + c)) (init + c) =
        l.foldl (fun acc b => min acc (f b.pos)) init + c
  | [], _ => rfl
  | a :: rest, init => by
    simp only [List.foldl_cons]
    rw [min_add_add_right]
    exact foldl_min_add f c rest (min init (f a.pos))

theorem foldl_max_add (f : Vec3 → ℚ) (c : ℚ) :
    ∀ (l : List Atom) (init : ℚ),
      l.foldl (fun acc b => max acc (f b.pos + c)) (init + c) =
        l.foldl (fun acc b => max acc (f b.pos)) init + c
  | [], _ => rfl
  | a :: rest, init => by
    simp only [List.foldl_cons]
    rw [max_add_add_right]
    exact foldl_max_add f c rest (max init (f a.pos))

theorem foldl_max_neg (f : Vec3 → ℚ) :
    ∀ (l : List Atom) (init : ℚ),
      l.foldl (fun acc b => max acc (-(f b.pos))) (-init) =
        -(l.foldl (fun acc b => min acc (f b.pos)) init)
  | [], _ => rfl
  | a :: rest, init => by
    simp only [List.foldl_cons]
    rw [max_neg_neg]
    exact foldl_max_neg f rest (min init (f a.pos))

theorem foldl_min_neg (f : Vec3 → ℚ) :
    ∀ (l : List Atom) (init : ℚ),
      l.foldl (fun acc b => min acc (-(f b.pos))) (-init) =
        -(l.foldl (fun acc b => max acc (f b.pos)) init)
  | [], _ => rfl
  | a :: rest, init => by
    simp only [List.foldl_cons]
    rw [min_neg_neg]
    exact foldl_min_neg f rest (max init (f a.pos))

theorem axisMin_translate (f : Vec3 → ℚ) (c : ℚ) (a : Atom) (l : List Atom) :
    axisMin (fun v => f v + c) (a :: l) = axisMin f (a :: l) + c := by
  simp only [axisMin]
  exact foldl_min_add f c l (f a.pos)

theorem axisMax_translate (f : Vec3 → ℚ) (c : ℚ) (a : Atom) (l : List Atom) :
    axisMax (fun v => f v + c) (a :: l) = axisMax f (a :: l) + c := by
  simp only [axisMax]
  exact foldl_max_add f c l (f a.pos)

theorem axisMax_neg (f : Vec3 → ℚ) (a : Atom) (l : List Atom) :
    axisMax (fun v => -(f v)) (a :: l) = -(axisMin f (a :: l)) := by
  simp only [axisMax, axisMin]
  exact foldl_max_neg f l (f a.pos)

theorem axisMin_neg (f : Vec3 → ℚ) (a : Atom) (l : List Atom) :
    axisMin (fun v => -(f v)) (a :: l) = -(axisMax f (a :: l)) := by
  simp only [axisMin, axisMax]
  exact foldl_min_neg f l (f a.pos)

theorem centerAtoms_length (atoms : List Atom) (cell : ℚ) :
    (centerAtoms atoms cell).length = atoms.length := by
  simp [centerAtoms]

/-- Centering a nonempty atom list really centers it: along each axis the
minimum and maximum coordinates become symmetric about cell/2. -/
theorem centerAtoms_bounds (cell : ℚ) (a : Atom) (l : List Atom) :
    (axisMin Vec3.x (centerAtoms (a :: l) cell) +
        axisMax Vec3.x (centerAtoms (a :: l) cell) = cell) ∧
    (axisMin Vec3.y (centerAtoms (a :: l) cell) +
        axisMax Vec3.y (centerAtoms (a :: l) cell) = cell) ∧
    (axisMin Vec3.z (centerAtoms (a :: l) cell) +
        axisMax Vec3.z (centerAtoms (a :: l) cell) = cell) := by
  have hmin := fun (f : Vec3 → ℚ) => axisMin_map_pos f
    (fun v => ⟨v.x + (cell - (axisMin Vec3.x (a :: l) + axisMax Vec3.x (a :: l))) / 2,
      v.y + (cell - (axisMin Vec3.y (a :: l) + axisMax Vec3.y (a :: l))) / 2,
      v.z + (cell - (axisMin Vec3.z (a :: l) + axisMax Vec3.z (a :: l))) / 2⟩)
    (a :: l)
  have hmax := fun (f : Vec3 → ℚ) => axisMax_map_pos f
    (fun v => ⟨v.x + (cell - (axisMin Vec3.x (a :: l) + axisMax Vec3.x (a :: l))) / 2,
      v.y + (cell - (axisMin Vec3.y (a :: l) + axisMax Vec3.y (a :: l))) / 2,
      v.z + (cell - (axisMin Vec3.z (a :: l) + axisMax Vec3.z (a :: l))) / 2⟩)
    (a :: l)
  refine ⟨?_, ?_, ?_⟩
  · have h1 : axisMin Vec3.x (centerAtoms (a :: l) cell) =
        axisMin (fun v => Vec3.x v +
          (cell - (axisMin Vec3.x (a :: l) + axisMax Vec3.x (a :: l))) / 2) (a :: l) :=
      hmin Vec3.x
    have h2 : axisMax Vec3.x (centerAtoms (a :: l) cell) =
        axisMax (fun v => Vec3.x v +
          (cell - (axisMin Vec3.x (a :: l) + axisMax Vec3.x (a :: l))) / 2) (a :: l) :=
      hmax Vec3.x
    rw [h1, h2,
      axisMin_translate Vec3.x
        ((cell - (axisMin Vec3.x (a :: l) + axisMax Vec3.x (a :: l))) / 2) a l,
      axisMax_translate Vec3.x
        ((cell - (axisMin Vec3.x (a :: l) + axisMax Vec3.x (a :: l))) / 2) a l]
    ring
  · have h1 : axisMin Vec3.y (centerAtoms (a :: l) cell) =
        axisMin (fun v => Vec3.y v +
          (cell - (axisMin Vec3.y (a :: l) + axisMax Vec3.y (a :: l))) / 2) (a :: l) :=
      hmin Vec3.y
    have h2 : axisMax Vec3.y (centerAtoms (a :: l) cell) =
        axisMax (fun v => Vec3.y v +
          (cell - (axisMin Vec3.y (a :: l) + axisMax Vec3.y (a :: l))) / 2) (a :: l) :=
      hmax Vec3.y
    rw [h1, h2,
      axisMin_translate Vec3.y
        ((cell - (axisMin Vec3.y (a :: l) + axisMax Vec3.y (a :: l))) / 2) a l,
      axisMax_translate Vec3.y
        ((cell - (axisMin Vec3.y (a :: l) + axisMax Vec3.y (a :: l))) / 2) a l]
    ring
  · have h1 : axisMin Vec3.z (centerAtoms (a :: l) cell) =
        axisMin (fun v => Vec3.z v +
          (cell - (axisMin Vec3.z (a :: l) + axisMax Vec3.z (a :: l))) / 2) (a :: l) :=
      hmin Vec3.z
    have h2 : axisMax Vec3.z (centerAtoms (a :: l) cell) =
        axisMax (fun v => Vec3.z v +
          (cell - (axisMin Vec3.z (a :: l) + axisMax Vec3.z (a :: l))) / 2) (a :: l) :=
      hmax Vec3.z
    rw [h1, h2,
      axisMin_translate Vec3.z
        ((cell - (axisMin Vec3.z (a :: l) + axisMax Vec3.z (a :: l))) / 2) a l,
      axisMax_translate Vec3.z
        ((cell - (axisMin Vec3.z (a :: l) + axisMax Vec3.z (a :: l))) / 2) a l]
    ring

/-! ## C5: the graphene preset -/

/-- The geometric body of `create_graphene_sheet` over an arbitrary ribbon:
rotate into the x-y plane, size the cubic cell, center, set periodicity.
`create_graphene_sheet` is definitionally this applied to the ribbon the
source requests from the builder. -/
def grapheneBox (rib : List Atom) : AtomicSystem :=
  let rotated := rib.map (fun a => { a with pos := rotX90 a.pos })
  let size_x := axisMax Vec3.x rotated - axisMin Vec3.x rotated
  let size_y := axisMax Vec3.y rotated - axisMin Vec3.y rotated
  let size_z := axisMax Vec3.z rotated - axisMin Vec3.z rotated
  let xy_size := max size_x size_y
  let cell_size := max (xy_size + 6) (size_z + 10)
  ⟨centerAtoms rotated cell_size, cell_size, true⟩

theorem create_graphene_sheet_eq_box (ext : ExternalLib) :
    create_graphene_sheet ext =
      grapheneBox (ext.graphene_nanoribbon 3 4 "zigzag" false) := rfl

/-- The geometry of `grapheneBox` on a nonempty ribbon generated in the
x-z plane with y the out-of-plane direction: periodic cubic cell whose edge
is the larger of (in-plane extent + 6) and (out-of-plane extent + 10), atoms
preserved in number, rotated into the x-y plane and centered on every
axis. -/
theorem grapheneBox_properties (a : Atom) (l : List Atom) :
    (grapheneBox (a :: l)).pbc = true ∧
    (grapheneBox (a :: l)).atoms.length = (a :: l).length ∧
    (grapheneBox (a :: l)).cell_size =
      max (max (axisMax Vec3.x (a :: l) - axisMin Vec3.x (a :: l))
          (axisMax Vec3.z (a :: l) - axisMin Vec3.z (a :: l)) + 6)
        (axisMax Vec3.y (a :: l) - axisMin Vec3.y (a :: l) + 10) ∧
    (axisMin Vec3.x (grapheneBox (a :: l)).atoms +
      axisMax Vec3.x (grapheneBox (a :: l)).atoms =
        (grapheneBox (a :: l)).cell_size) ∧
    (axisMin Vec3.y (grapheneBox (a :: l)).atoms +
      axisMax Vec3.y (grapheneBox (a :: l)).atoms =
        (grapheneBox (a :: l)).cell_size) ∧
    (axisMin Vec3.z (grapheneBox (a :: l)).atoms +
      axisMax Vec3.z (grapheneBox (a :: l)).atoms =
        (grapheneBox (a :: l)).cell_size) := by
  have hxmin : axisMin Vec3.x ((a :: l).map (fun b => { b with pos := rotX90 b.pos })) =
      axisMin Vec3.x (a :: l) := axisMin_map_pos Vec3.x rotX90 (a :: l)
  have hxmax : axisMax Vec3.x ((a :: l).map (fun b => { b with pos := rotX90 b.pos })) =
      axisMax Vec3.x (a :: l) := axisMax_map_pos Vec3.x rotX90 (a :: l)
  have hymin : axisMin Vec3.y ((a :: l).map (fun b => { b with pos := rotX90 b.pos })) =
      -(axisMax Vec3.z (a :: l)) :=
    (axisMin_map_pos Vec3.y rotX90 (a :: l)).trans (axisMin_neg Vec3.z a l)
  have hymax : axisMax Vec3.y ((a :: l).map (fun b => { b with pos := rotX90 b.pos })) =
      -(axisMin Vec3.z (a :: l)) :=
    (axisMax_map_pos Vec3.y rotX90 (a :: l)).trans (axisMax_neg Vec3.z a l)
  have hzmin : axisMin Vec3.z ((a :: l).map (fun b => { b with pos := rotX90 b.pos })) =
      axisMin Vec3.y (a :: l) := axisMin_map_pos Vec3.z rotX90 (a :: l)
  have hzmax : axisMax Vec3.z ((a :: l).map (fun b => { b with pos := rotX90 b.pos })) =
      axisMax Vec3.y (a :: l) := axisMax_map_pos Vec3.z rotX90 (a :: l)
  have hcell : (grapheneBox (a :: l)).cell_size =
      max (max (axisMax Vec3.x ((a :: l).map (fun b => { b with pos := rotX90 b.pos })) -
            axisMin Vec3.x ((a :: l).map (fun b => { b with pos := rotX90 b.pos })))
          (axisMax Vec3.y ((a :: l).map (fun b => { b with pos := rotX90 b.pos })) -
            axisMin Vec3.y ((a :: l).map (fun b => { b with pos := rotX90 b.pos }))) + 6)
        (axisMax Vec3.z ((a :: l).map (fun b => { b with pos := rotX90 b.pos })) -
          axisMin Vec3.z ((a :: l).map (fun b => { b with pos := rotX90 b.pos })) + 10) := rfl
  have hcell2 : (grapheneBox (a :: l)).cell_size =
      max (max (axisMax Vec3.x (a :: l) - axisMin Vec3.x (a :: l))
          (axisMax Vec3.z (a :: l) - axisMin Vec3.z (a :: l)) + 6)
        (axisMax Vec3.y (a :: l) - axisMin Vec3.y (a :: l) + 10) := by
    rw [hcell, hxmin, hxmax, hymin, hymax, hzmin, hzmax]
    have key : -(axisMax Vec3.z (a :: l)) - -(axisMin Vec3.z (a :: l)) =
        axisMin Vec3.z (a :: l) - axisMax Vec3.z (a :: l) := by ring
    rw [show -(axisMin Vec3.z (a :: l)) - -(axisMax Vec3.z (a :: l)) =
        axisMax Vec3.z (a :: l) - axisMin Vec3.z (a :: l) from by ring]
  have hatoms : (grapheneBox (a :: l)).atoms =
      centerAtoms ((a :: l).map (fun b => { b with pos := rotX90 b.pos }))
        (grapheneBox (a :: l)).cell_size := rfl
  refine ⟨rfl, ?_, hcell2, ?_, ?_, ?_⟩
  · rw [hatoms, centerAtoms_length, List.length_map]
  · rw [hatoms]
    simp only [List.map_cons]
    exact (centerAtoms_bounds _ _ _).1
  · rw [hatoms]
    simp only [List.map_cons]
    exact (centerAtoms_bounds _ _ _).2.1
  · rw [hatoms]
    simp only [List.map_cons]
    exact (centerAtoms_bounds _ _ _).2.2

/-- C5 (amended): for any nonempty ribbon produced by the builder call the
source makes — zigzag type, unsaturated, width parameter 3 (not the 4 of
the claim) and length parameter 4 — the graphene preset returns that ribbon rotated
from its generated x-z plane into the x-y plane, centered on every axis in a
cubic periodic cell whose edge is the larger of (in-plane extent + 6) and
(out-of-plane extent + 10). -/
theorem create_graphene_sheet_properties (ext : ExternalLib)
    (hne : ext.graphene_nanoribbon 3 4 "zigzag" false ≠ []) :
    (create_graphene_sheet ext).pbc = true ∧
    (create_graphene_sheet ext).atoms.length =
      (ext.graphene_nanoribbon 3 4 "zigzag" false).length ∧
    (create_graphene_sheet ext).cell_size =
      max (max (axisMax Vec3.x (ext.graphene_nanoribbon 3 4 "zigzag" false) -
            axisMin Vec3.x (ext.graphene_nanoribbon 3 4 "zigzag" false))
          (axisMax Vec3.z (ext.graphene_nanoribbon 3 4 "zigzag" false) -
            axisMin Vec3.z (ext.graphene_nanoribbon 3 4 "zigzag" false)) + 6)
        (axisMax Vec3.y (ext.graphene_nanoribbon 3 4 "zigzag" false) -
          axisMin Vec3.y (ext.graphene_nanoribbon 3 4 "zigzag" false) + 10) ∧
    (axisMin Vec3.x (create_graphene_sheet ext).atoms +
      axisMax Vec3.x (create_graphene_sheet ext).atoms =
        (create_graphene_sheet ext).cell_size) ∧
    (axisMin Vec3.y (create_graphene_sheet ext).atoms +
      axisMax Vec3.y (create_graphene_sheet ext).atoms =
        (create_graphene_sheet ext).cell_size) ∧
    (axisMin Vec3.z (create_graphene_sheet ext).atoms +
      axisMax Vec3.z (create_graphene_sheet ext).atoms =
        (create_graphene_sheet ext).cell_size) := by
  obtain ⟨a, l, hal⟩ := List.exists_cons_of_ne_nil hne
  rw [create_graphene_sheet_eq_box, hal]
  exact grapheneBox_properties a l

/-- The external-library probe used by counterexamples and witnesses: each
builder returns a small nonempty configuration, and the ribbon builder
encodes the width and length arguments it received in the coordinates of
its second atom, making the builder call observable in the output. -/
def extProbe : ExternalLib :=
  { molecule := fun _ => [⟨"X", ⟨0, 0, 0⟩⟩]
    bulk := fun _ _ a => ⟨[⟨"X", ⟨0, 0, 0⟩⟩], a, true⟩
    graphene_nanoribbon := fun n m _ _ =>
      [⟨"C", ⟨0, 0, 0⟩⟩, ⟨"C", ⟨(n : ℚ), 0, (m : ℚ)⟩⟩] }

/-- The graphene construction exactly as the sentence of the claim states it:
identical to the source except that the ribbon builder is called with width
parameter 4 unit rows instead of the 3 of the source. -/
def create_graphene_sheet_claim_width4 (ext : ExternalLib) : AtomicSystem :=
  let ribbon := ext.graphene_nanoribbon 4 4 "zigzag" false
  let rotated := ribbon.map (fun a => { a with pos := rotX90 a.pos })
  let size_x := axisMax Vec3.x rotated - axisMin Vec3.x rotated
  let size_y := axisMax Vec3.y rotated - axisMin Vec3.y rotated
  let size_z := axisMax Vec3.z rotated - axisMin Vec3.z rotated
  let xy_size := max size_x size_y
  let cell_size := max (xy_size + 6) (size_z + 10)
  ⟨centerAtoms rotated cell_size, cell_size, true⟩

/-- C5 counterexample: under a probe library whose ribbon builder encodes
its width and length arguments in an atom coordinate, the source graphene
preset (width parameter 3) differs from the width-4 construction of the claim:
the source calls `graphene_nanoribbon(3, 4, type=zigzag, saturated=False)`,
not width 4. -/
theorem create_graphene_sheet_width_counterexample :
    create_graphene_sheet extProbe ≠ create_graphene_sheet_claim_width4 extProbe ∧
    (create_graphene_sheet extProbe).atoms.map (fun a => a.pos.x) = [7/2, 13/2] ∧
    (create_graphene_sheet_claim_width4 extProbe).atoms.map (fun a => a.pos.x) =
      [3, 7] := by
  have h2 : (create_graphene_sheet extProbe).atoms.map (fun a => a.pos.x) =
      [7/2, 13/2] := by
    norm_num [create_graphene_sheet, extProbe, rotX90, axisMin, axisMax, centerAtoms,
      List.foldl_cons, List.foldl_nil, max_def, min_def]
  have h3 : (create_graphene_sheet_claim_width4 extProbe).atoms.map (fun a => a.pos.x) =
      [3, 7] := by
    norm_num [create_graphene_sheet_claim_width4, extProbe, rotX90, axisMin, axisMax,
      centerAtoms, List.foldl_cons, List.foldl_nil, max_def, min_def]
  refine ⟨?_, h2, h3⟩
  intro h
  rw [h, h3] at h2
  norm_num at h2

/-- C5 witness: the amended statement holds at the probe library, whose
two-atom ribbon is nonempty. -/
theorem create_graphene_sheet_properties_witness :
    (create_graphene_sheet extProbe).pbc = true ∧
    (create_graphene_sheet extProbe).atoms.length =
      (extProbe.graphene_nanoribbon 3 4 "zigzag" false).length ∧
    (create_graphene_sheet extProbe).cell_size =
      max (max (axisMax Vec3.x (extProbe.graphene_nanoribbon 3 4 "zigzag" false) -
            axisMin Vec3.x (extProbe.graphene_nanoribbon 3 4 "zigzag" false))
          (axisMax Vec3.z (extProbe.graphene_nanoribbon 3 4 "zigzag" false) -
            axisMin Vec3.z (extProbe.graphene_nanoribbon 3 4 "zigzag" false)) + 6)
        (axisMax Vec3.y (extProbe.graphene_nanoribbon 3 4 "zigzag" false) -
          axisMin Vec3.y (extProbe.graphene_nanoribbon 3 4 "zigzag" false) + 10) ∧
    (axisMin Vec3.x (create_graphene_sheet extProbe).atoms +
      axisMax Vec3.x (create_graphene_sheet extProbe).atoms =
        (create_graphene_sheet extProbe).cell_size) ∧
    (axisMin Vec3.y (create_graphene_sheet extProbe).atoms +
      axisMax Vec3.y (create_graphene_sheet extProbe).atoms =
        (create_graphene_sheet extProbe).cell_size) ∧
    (axisMin Vec3.z (create_graphene_sheet extProbe).atoms +
      axisMax Vec3.z (create_graphene_sheet extProbe).atoms =
        (create_graphene_sheet extProbe).cell_size) :=
  create_graphene_sheet_properties extProbe (by simp [extProbe])

/-! ## C9: the preset catalog -/

theorem ne_nil_of_length_eq {α β : Type} (l1 : List α) (l2 : List β)
    (h : l1.length = l2.length) (h2 : l2 ≠ []) : l1 ≠ [] := by
  intro h0
  apply h2
  apply List.eq_nil_of_length_eq_zero
  rw [← h, h0]
  rfl

theorem molecule_in_box_atoms_length (ext : ExternalLib) (name : String)
    (vac : ℚ) : (molecule_in_box ext name vac).atoms.length =
      (ext.molecule name).length := by
  simp [molecule_in_box, centerAtoms_length]

theorem repeat222_atoms_length (sys : AtomicSystem) :
    (repeat222 sys).atoms.length = 8 * sys.atoms.length := by
  simp [repeat222]
  omega

/-- C9: `create_preset` succeeds with a populated (nonempty) atomic system
for every identifier in the catalog, and fails with the InvalidInput error
(`ValueError: Unknown preset`) for every identifier outside it, assuming
the external builders return nonempty configurations.  The embedding is a
pure function, so neither outcome mutates the catalog or any other state. -/
theorem create_preset_total_on_catalog (ext : ExternalLib)
    (hmol : ∀ name, ext.molecule name ≠ [])
    (hbulk : ∀ sym cs a, (ext.bulk sym cs a).atoms ≠ [])
    (hgnr : ∀ n m t s, ext.graphene_nanoribbon n m t s ≠ []) :
    (∀ pid ∈ get_preset_names,
      ∃ sys, create_preset ext pid = .ok sys ∧ sys.atoms ≠ []) ∧
    (∀ pid, pid ∉ get_preset_names →
      create_preset ext pid = .error (.invalidInput ("Unknown preset: " ++ pid))) := by
  have hbox : ∀ name vac, (molecule_in_box ext name vac).atoms ≠ [] := fun name vac =>
    ne_nil_of_length_eq _ _ (molecule_in_box_atoms_length ext name vac) (hmol name)
  have hrep : ∀ sys : AtomicSystem, sys.atoms ≠ [] → (repeat222 sys).atoms ≠ [] := by
    intro sys hs
    have h1 := repeat222_atoms_length sys
    have h2 : 0 < sys.atoms.length := List.length_pos.mpr hs
    intro h0
    rw [h0] at h1
    simp only [List.length_nil] at h1
    omega
  constructor
  · intro pid hpid
    have hnames : get_preset_names = ["water", "ice", "ethanol", "methane",
        "benzene", "co2", "diamond", "gold", "graphene", "nacl", "copper"] := rfl
    rw [hnames] at hpid
    simp only [List.mem_cons, List.not_mem_nil, or_false] at hpid
    rcases hpid with rfl | rfl | rfl | rfl | rfl | rfl | rfl | rfl | rfl | rfl | rfl
    · exact ⟨create_water_molecule ext, by simp [create_preset, PRESETS, List.find?],
        ne_nil_of_length_eq _ _
          (by simp [create_water_molecule, molecule_in_box, centerAtoms_length])
          (hmol "H2O")⟩
    · exact ⟨create_ice_crystal, by simp [create_preset, PRESETS, List.find?],
        by decide⟩
    · exact ⟨create_ethanol_molecule ext,
        by simp [create_preset, PRESETS, List.find?], hbox "CH3CH2OH" 5⟩
    · exact ⟨create_methane_molecule ext,
        by simp [create_preset, PRESETS, List.find?], hbox "CH4" 5⟩
    · exact ⟨create_benzene_molecule ext,
        by simp [create_preset, PRESETS, List.find?], hbox "C6H6" 5⟩
    · exact ⟨create_co2_molecule ext, by simp [create_preset, PRESETS, List.find?],
        ne_nil_of_length_eq _ _
          (by simp [create_co2_molecule, molecule_in_box, centerAtoms_length])
          (hmol "CO2")⟩
    · exact ⟨create_diamond_lattice ext,
        by simp [create_preset, PRESETS, List.find?], hbulk "C" "diamond" (3567/1000)⟩
    · exact ⟨create_fcc_gold ext, by simp [create_preset, PRESETS, List.find?],
        hrep _ (hbulk "Au" "fcc" (408/100))⟩
    · exact ⟨create_graphene_sheet ext, by simp [create_preset, PRESETS, List.find?],
        ne_nil_of_length_eq _ _
          (by simp [create_graphene_sheet, centerAtoms_length])
          (hgnr 3 4 "zigzag" false)⟩
    · exact ⟨create_nacl_crystal ext, by simp [create_preset, PRESETS, List.find?],
        hbulk "NaCl" "rocksalt" (564/100)⟩
    · exact ⟨create_copper_fcc ext, by simp [create_preset, PRESETS, List.find?],
        hrep _ (hbulk "Cu" "fcc" (361/100))⟩
  · intro pid hpid
    have hfind : PRESETS.find? (fun p => p.1 = pid) = none := by
      rw [List.find?_eq_none]
      intro x hx
      simp only [decide_eq_true_eq]
      intro hxeq
      apply hpid
      rw [← hxeq]
      exact List.mem_map_of_mem (fun p => p.1) hx
    simp [create_preset, hfind]

/-- C9 witness: at the probe library, the catalog identifier water yields a
populated system and the unknown identifier argon raises the InvalidInput
error. -/
theorem create_preset_total_on_catalog_witness :
    (∃ sys, create_preset extProbe "water" = .ok sys ∧ sys.atoms ≠ []) ∧
    create_preset extProbe "argon" =
      .error (.invalidInput ("Unknown preset: " ++ "argon")) :=
  ⟨(create_preset_total_on_catalog extProbe (fun _ => by simp [extProbe])
      (fun _ _ _ => by simp [extProbe]) (fun _ _ _ _ => by simp [extProbe])).1
      "water" (by simp [get_preset_names, PRESETS]),
    (create_preset_total_on_catalog extProbe (fun _ => by simp [extProbe])
      (fun _ _ _ => by simp [extProbe]) (fun _ _ _ _ => by simp [extProbe])).2
      "argon" (by simp [get_preset_names, PRESETS])⟩

end MDToy
